import Mathlib

/-!
Shallow embedding of the IndianKanoon scraper (src/py.py) and verification of
its specification claims.

The scraper keeps two ledgers (`processed_ids`, `failed_ids`, each mirrored in
a text file of one identifier per line), an optional proxy list with a
round-robin cursor, and an output corpus file.  The network transport and the
HTML extraction are external collaborators; they are modelled by an injected
oracle `Nat → FetchOutcome` giving, for each HTTP call of one `fetch_case`
invocation (call 0 = first attempt, call 1 = the one retry after a 429), the
outcome of `session.get` + `raise_for_status` + BeautifulSoup parsing:
either a rate-limit status (429), a request failure (timeout / connection
error / non-2xx), or a parsed page (`Document`, holding the optional
`div class=judgments` text and the optional `h1` text).
-/

namespace Scraper

/-- Parsed page, as seen by the code after BeautifulSoup: the text of the
`judgments` div when that div exists (py.py lines 131, 141) and the text of
the `h1` tag when it exists (line 144). -/
structure Document where
  judgments : Option String
  h1 : Option String
deriving DecidableEq

/-- Outcome of one HTTP call inside `fetch_case`: status 429 (line 112),
a `requests.RequestException` or non-2xx status (line 120, covering both a
raising `get` and `raise_for_status`), or a successfully parsed 2xx page. -/
inductive FetchOutcome where
  | rateLimited
  | error
  | ok (doc : Document)
deriving DecidableEq

/-- Normalized proxy configuration: the values of the "http" and "https"
keys of the dict built by `get_next_proxy` (py.py lines 76-86). -/
abbrev ProxyCfg := String × String

/-- Whole mutable state of `IndianKanoonScraper` plus the files it writes:
the two in-memory id sets and proxy rotation state (py.py lines 36-39), the
line contents of processed_ids.txt and failed_ids.txt, and the bytes of the
output corpus file. -/
structure ScraperState where
  processed_ids : Finset Nat
  failed_ids : Finset Nat
  proxies : List String
  proxy_index : Nat
  processedFile : List Nat
  failedFile : List Nat
  corpus : String
deriving DecidableEq

/-- Reading a ledger file into a set: `set(int(line.strip()) for line in f)`
(py.py lines 43-44 and 50-51), with each file line already modelled as a
number. -/
def load_ids (lines : List Nat) : Finset Nat := lines.toFinset

/-- `IndianKanoonScraper.__init__` (py.py lines 24-53): load both ledger
files (a missing file is the empty list), cursor at 0, fresh in-memory sets
equal to the loaded file contents; the corpus file may already hold bytes
from an earlier run. -/
def init_state (processedLines failedLines : List Nat) (proxies : List String)
    (corpus0 : String) : ScraperState :=
  { processed_ids := load_ids processedLines
    failed_ids := load_ids failedLines
    proxies := proxies
    proxy_index := 0
    processedFile := processedLines
    failedFile := failedLines
    corpus := corpus0 }

/-- Scheme normalization of one proxy entry (py.py lines 74-86).  Whether
`urlparse` finds a scheme is external library behaviour, abstracted as the
predicate `hs`. -/
def normalize_proxy (hs : String → Bool) (proxy : String) : ProxyCfg :=
  if hs proxy then (proxy, proxy)
  else ("http://" ++ proxy, "https://" ++ proxy)

/-- `get_next_proxy` (py.py lines 66-86): none when the list is empty;
otherwise the entry at the cursor, normalized, with the cursor advanced
modulo the list length. -/
def get_next_proxy (hs : String → Bool) (s : ScraperState) :
    Option ProxyCfg × ScraperState :=
  if s.proxies.isEmpty then (none, s)
  else
    (some (normalize_proxy hs (s.proxies.getD s.proxy_index "")),
      { s with proxy_index := (s.proxy_index + 1) % s.proxies.length })

/-- The inline marking code at py.py lines 147-150 (also 134-137): add to the
in-memory processed set and append one line to processed_ids.txt. -/
def mark_done (s : ScraperState) (doc_id : Nat) : ScraperState :=
  { s with
    processed_ids := insert doc_id s.processed_ids
    processedFile := s.processedFile ++ [doc_id] }

/-- The inline marking code at py.py lines 123-125: add to the in-memory
failed set and append one line to failed_ids.txt. -/
def mark_failed (s : ScraperState) (doc_id : Nat) : ScraperState :=
  { s with
    failed_ids := insert doc_id s.failed_ids
    failedFile := s.failedFile ++ [doc_id] }

/-- Result of one `fetch_case` invocation: the returned
`Optional[Tuple[int, str, str]]`, the state afterwards, and the list of HTTP
calls issued (each recording the proxy configuration passed to
`session.get`). -/
structure FetchResult where
  result : Option (Nat × String × String)
  state : ScraperState
  calls : List (Option ProxyCfg)
deriving DecidableEq

/-- `fetch_case` (py.py lines 92-152).  Skip ids already in either set
(lines 94-101, no side effect, no HTTP call).  Otherwise draw the proxy once
(line 106), issue the first call; on a 429 issue exactly one further call
with the same `proxies` value (lines 112-116).  A request failure or a
(still) non-2xx final status raises `RequestException` and marks the id
failed (lines 120-126).  On a parsed page: no judgments div marks the id
done and returns nothing (lines 131-138); otherwise the record
(id, h1-title or default, judgments text) is returned and the id is marked
done (lines 140-152). -/
def fetch_case (hs : String → Bool) (oracle : Nat → FetchOutcome)
    (s : ScraperState) (doc_id : Nat) : FetchResult :=
  if doc_id ∈ s.processed_ids then ⟨none, s, []⟩
  else if doc_id ∈ s.failed_ids then ⟨none, s, []⟩
  else
    let p := (get_next_proxy hs s).1
    let s1 := (get_next_proxy hs s).2
    let resp := if oracle 0 = FetchOutcome.rateLimited then oracle 1 else oracle 0
    let calls := if oracle 0 = FetchOutcome.rateLimited then [p, p] else [p]
    match resp with
    | FetchOutcome.ok doc =>
      match doc.judgments with
      | none => ⟨none, mark_done s1 doc_id, calls⟩
      | some judgment_text =>
        ⟨some (doc_id, doc.h1.getD ("Case " ++ toString doc_id), judgment_text),
          mark_done s1 doc_id, calls⟩
    | _ => ⟨none, mark_failed s1 doc_id, calls⟩

/-- The 100-character delimiter line `'='*100` (py.py lines 160, 162). -/
def eqLine : String := String.mk (List.replicate 100 '=')

/-- The exact bytes appended to the corpus file for one record
(py.py lines 160-164, identically lines 214-218). -/
def recordBlock (doc_id : Nat) (title content : String) : String :=
  "\n\n" ++ eqLine ++ "\n" ++ "Case ID: " ++ toString doc_id ++ "\nTitle: "
    ++ title ++ "\n" ++ eqLine ++ "\n\n" ++ content ++ "\n\n"

/-- `process_single_case` (py.py lines 154-170): fetch, and when a record
came back append its block to the corpus file.  Also reports the HTTP calls
of the inner `fetch_case`. -/
def process_single_case (hs : String → Bool) (oracle : Nat → FetchOutcome)
    (s : ScraperState) (doc_id : Nat) : ScraperState × List (Option ProxyCfg) :=
  let r := fetch_case hs oracle s doc_id
  match r.result with
  | some (did, title, content) =>
    ({ r.state with corpus := r.state.corpus ++ recordBlock did title content },
      r.calls)
  | none => (r.state, r.calls)

/-- `save_cases` (py.py lines 172-192): the ids of `range(start, end+1)` not
in either set are selected up front against the entry state, then processed
sequentially.  The oracle is indexed per identifier. -/
def save_cases (hs : String → Bool) (oracle : Nat → Nat → FetchOutcome)
    (s : ScraperState) (start fin : Nat) : ScraperState :=
  let ids_to_process := (List.range' start (fin + 1 - start)).filter
    (fun doc_id =>
      decide (doc_id ∉ s.processed_ids) && decide (doc_id ∉ s.failed_ids))
  ids_to_process.foldl
    (fun st doc_id => (process_single_case hs (oracle doc_id) st doc_id).1) s

/-- The batch loop of the entry point (py.py lines 255-260):
`range(1, total+1, batch_size)` gives `(total + batch_size - 1) / batch_size`
batch starts, and each batch covers up to `min(start + batch_size - 1,
total)`.  `batch_size` is positive in the program (it is 50). -/
def run_range (hs : String → Bool) (oracle : Nat → Nat → FetchOutcome)
    (s : ScraperState) (total batch_size : Nat) : ScraperState :=
  (List.range' 1 ((total + batch_size - 1) / batch_size) batch_size).foldl
    (fun st bstart =>
      save_cases hs oracle st bstart (min (bstart + batch_size - 1) total)) s

/-- One iteration of the inner retry loop (py.py lines 209-222): fetch the
id, and on a returned record append its block and remove the id from the
working list (`failed_ids.remove(doc_id)` drops the first occurrence).  The
accumulator carries (state, working list, HTTP-call log). -/
def retry_step (hs : String → Bool) (oracleP : Nat → Nat → FetchOutcome)
    (acc : ScraperState × List Nat × List (Option ProxyCfg)) (doc_id : Nat) :
    ScraperState × List Nat × List (Option ProxyCfg) :=
  let r := fetch_case hs (oracleP doc_id) acc.1 doc_id
  match r.result with
  | some (did, title, content) =>
    ({ r.state with corpus := r.state.corpus ++ recordBlock did title content },
      (acc.2.1).erase doc_id, acc.2.2 ++ r.calls)
  | none => (r.state, acc.2.1, acc.2.2 ++ r.calls)

/-- One pass of the retry loop (py.py lines 205-231): iterate over a snapshot
copy `failed_ids[:]` of the working list taken at the start of the pass. -/
def retry_pass (hs : String → Bool) (oracleP : Nat → Nat → FetchOutcome)
    (s : ScraperState) (working : List Nat) :
    ScraperState × List Nat × List (Option ProxyCfg) :=
  working.foldl (retry_step hs oracleP) (s, working, [])

/-- The `for retry in range(max_retries)` loop with its early
`if not failed_ids: break` (py.py lines 205-235), by fuel on the remaining
passes; the oracle is indexed by pass number then identifier. -/
def retry_loop (hs : String → Bool) (oracle : Nat → Nat → Nat → FetchOutcome) :
    Nat → Nat → ScraperState → List Nat → List (Option ProxyCfg) →
      ScraperState × List Nat × List (Option ProxyCfg)
  | 0, _, s, wk, log => (s, wk, log)
  | fuel + 1, pass, s, wk, log =>
    let r := retry_pass hs (oracle pass) s wk
    if r.2.1 = [] then (r.1, r.2.1, log ++ r.2.2)
    else retry_loop hs oracle fuel (pass + 1) r.1 r.2.1 (log ++ r.2.2)

/-- Insertion of a number into a sorted list, the building block of the
ascending listing of a finite set used to model Python's `list(set)` /
set-iteration (whose order is unspecified). -/
def insertSorted (a : Nat) : List Nat → List Nat
  | [] => [a]
  | b :: l => if a ≤ b then a :: b :: l else b :: insertSorted a l

instance : LeftCommutative insertSorted :=
  ⟨fun a b l => by
    induction l with
    | nil =>
      by_cases h1 : a ≤ b <;> by_cases h2 : b ≤ a <;>
        simp [insertSorted, h1, h2] <;> omega
    | cons c l ih =>
      by_cases hac : a ≤ c <;> by_cases hbc : b ≤ c <;>
        by_cases hab : a ≤ b <;> by_cases hba : b ≤ a <;>
        simp [insertSorted, hac, hbc, hab, hba, ih] <;> omega⟩

/-- Ascending listing of a finite set of identifiers; stands for Python's
`list(self.failed_ids)` (py.py line 203) and for the set iteration of the
wholesale rewrite (py.py lines 240-241), whose order is unspecified. -/
def sortedListOf (s : Finset Nat) : List Nat :=
  Multiset.foldr insertSorted [] s.1

/-- `retry_failed_cases` (py.py lines 194-241): no-op when the failed set is
empty; otherwise run the passes over `list(self.failed_ids)` (modelled as the
ascending listing of the set), then replace the in-memory failed set by the
remainder of the working list and rewrite failed_ids.txt wholesale with that
set's elements. -/
def retry_failed_cases (hs : String → Bool)
    (oracle : Nat → Nat → Nat → FetchOutcome) (s : ScraperState)
    (max_retries : Nat) : ScraperState × List (Option ProxyCfg) :=
  if s.failed_ids = ∅ then (s, [])
  else
    let working := sortedListOf s.failed_ids
    let r := retry_loop hs oracle max_retries 0 s working []
    let finalFailed := (r.2.1).toFinset
    ({ r.1 with
        failed_ids := finalFailed
        failedFile := sortedListOf finalFailed }, r.2.2)

/-- Scheme predicate for runs without a proxies file (the list is empty, so
it is never consulted). -/
def hs0 : String → Bool := fun _ => false

/-- State of a fresh run: no ledger files on disk, no proxies, empty
corpus. -/
def emptyState : ScraperState := ⟨∅, ∅, [], 0, [], [], ""⟩

/-- Concrete scraper state with id 1 already processed and id 2 already
failed. -/
def witState : ScraperState := ⟨{1}, {2}, [], 0, [1], [2], ""⟩

/-- Fetch oracle whose every call yields a parsed page with a judgments div
and a title. -/
def oracleOkA : Nat → FetchOutcome :=
  fun _ => FetchOutcome.ok ⟨some "judgment body", some "A v. B"⟩

/-- Fetch oracle that is rate-limited on the first call and returns a full
page on the retry. -/
def oracleRL : Nat → FetchOutcome := fun n =>
  if n = 0 then FetchOutcome.rateLimited
  else FetchOutcome.ok ⟨some "judgment body", some "A v. B"⟩

/-- Concrete state like `witState` but with a two-entry proxy list. -/
def proxyState : ScraperState := ⟨{1}, {2}, ["p1:80", "p2:80"], 0, [1], [2], ""⟩

/-- Fetch oracle of the `runRange(1,10,5)` scenario: id 5 yields a page with
no judgments div, every other id a full page. -/
def oracle6 : Nat → Nat → FetchOutcome := fun doc_id _attempt =>
  if doc_id = 5 then FetchOutcome.ok ⟨none, none⟩
  else FetchOutcome.ok
    ⟨some ("body" ++ toString doc_id), some ("title" ++ toString doc_id)⟩

/-- Fetch oracle that always yields a page without a judgments div. -/
def oracleEmptyDoc : Nat → FetchOutcome :=
  fun _ => FetchOutcome.ok ⟨none, some "T"⟩

/-- State at the start of the retry scenario: failed = 7,8,9, nothing
processed. -/
def retryState : ScraperState := ⟨∅, {7, 8, 9}, [], 0, [], [7, 8, 9], ""⟩

/-- Injected fetch of the retry scenario: ids 7 and 8 succeed on every pass
(in particular the first), id 9 always fails. -/
def oracleRetry : Nat → Nat → Nat → FetchOutcome := fun _pass doc_id _attempt =>
  if doc_id = 9 then FetchOutcome.error
  else FetchOutcome.ok ⟨some ("body" ++ toString doc_id), none⟩

/-- Preservation predicate between two scraper states: both id sets only
grow, and disjointness of the two sets is preserved. -/
def Pres (s t : ScraperState) : Prop :=
  s.processed_ids ⊆ t.processed_ids ∧ s.failed_ids ⊆ t.failed_ids
    ∧ (Disjoint s.processed_ids s.failed_ids
        → Disjoint t.processed_ids t.failed_ids)

/-- One observable operation of the scraper: a single fetch, the processing
of one id, a batch run, the whole batched range run, or the retry pass. -/
inductive ScraperStep (hs : String → Bool) : ScraperState → ScraperState → Prop
  | fetch (oracle : Nat → FetchOutcome) (s : ScraperState) (doc_id : Nat) :
      ScraperStep hs s (fetch_case hs oracle s doc_id).state
  | single (oracle : Nat → FetchOutcome) (s : ScraperState) (doc_id : Nat) :
      ScraperStep hs s (process_single_case hs oracle s doc_id).1
  | save (oracle : Nat → Nat → FetchOutcome) (s : ScraperState) (a b : Nat) :
      ScraperStep hs s (save_cases hs oracle s a b)
  | runr (oracle : Nat → Nat → FetchOutcome) (s : ScraperState) (t b : Nat) :
      ScraperStep hs s (run_range hs oracle s t b)
  | retry (oracle : Nat → Nat → Nat → FetchOutcome) (s : ScraperState)
      (n : Nat) :
      ScraperStep hs s (retry_failed_cases hs oracle s n).1

/-- N successive calls of `get_next_proxy`, collecting the returned proxy
configurations in order. -/
def get_next_proxy_iter (hs : String → Bool) (s : ScraperState) :
    Nat → List (Option ProxyCfg) × ScraperState
  | 0 => ([], s)
  | n + 1 =>
    let prev := get_next_proxy_iter hs s n
    let step := get_next_proxy hs prev.2
    (prev.1 ++ [step.1], step.2)

/-! ### Helper lemmas about single operations -/

theorem fetch_case_skip (hs : String → Bool) (oracle : Nat → FetchOutcome)
    (s : ScraperState) (doc_id : Nat)
    (h : doc_id ∈ s.processed_ids ∨ doc_id ∈ s.failed_ids) :
    fetch_case hs oracle s doc_id = ⟨none, s, []⟩ := by
  unfold fetch_case
  rcases h with h | h
  · rw [if_pos h]
  · by_cases hp : doc_id ∈ s.processed_ids
    · rw [if_pos hp]
    · rw [if_neg hp, if_pos h]

theorem fetch_case_unresolved_eq (hs : String → Bool) (oracle : Nat → FetchOutcome)
    (s : ScraperState) (doc_id : Nat)
    (h1 : doc_id ∉ s.processed_ids) (h2 : doc_id ∉ s.failed_ids) :
    fetch_case hs oracle s doc_id =
      (match (if oracle 0 = FetchOutcome.rateLimited then oracle 1 else oracle 0) with
       | FetchOutcome.ok doc =>
         match doc.judgments with
         | none =>
           ⟨none, mark_done (get_next_proxy hs s).2 doc_id,
             if oracle 0 = FetchOutcome.rateLimited
             then [(get_next_proxy hs s).1, (get_next_proxy hs s).1]
             else [(get_next_proxy hs s).1]⟩
         | some judgment_text =>
           ⟨some (doc_id, doc.h1.getD ("Case " ++ toString doc_id), judgment_text),
             mark_done (get_next_proxy hs s).2 doc_id,
             if oracle 0 = FetchOutcome.rateLimited
             then [(get_next_proxy hs s).1, (get_next_proxy hs s).1]
             else [(get_next_proxy hs s).1]⟩
       | _ =>
         ⟨none, mark_failed (get_next_proxy hs s).2 doc_id,
           if oracle 0 = FetchOutcome.rateLimited
           then [(get_next_proxy hs s).1, (get_next_proxy hs s).1]
           else [(get_next_proxy hs s).1]⟩) := by
  unfold fetch_case
  rw [if_neg h1, if_neg h2]

theorem get_next_proxy_snd (hs : String → Bool) (s : ScraperState) :
    (get_next_proxy hs s).2.processed_ids = s.processed_ids
    ∧ (get_next_proxy hs s).2.failed_ids = s.failed_ids
    ∧ (get_next_proxy hs s).2.processedFile = s.processedFile
    ∧ (get_next_proxy hs s).2.failedFile = s.failedFile
    ∧ (get_next_proxy hs s).2.corpus = s.corpus
    ∧ (get_next_proxy hs s).2.proxies = s.proxies := by
  unfold get_next_proxy
  split <;> exact ⟨rfl, rfl, rfl, rfl, rfl, rfl⟩

theorem fetch_case_state_cases (hs : String → Bool) (oracle : Nat → FetchOutcome)
    (s : ScraperState) (doc_id : Nat)
    (h1 : doc_id ∉ s.processed_ids) (h2 : doc_id ∉ s.failed_ids) :
    (fetch_case hs oracle s doc_id).state = mark_done (get_next_proxy hs s).2 doc_id
    ∨ (fetch_case hs oracle s doc_id).state = mark_failed (get_next_proxy hs s).2 doc_id := by
  rw [fetch_case_unresolved_eq hs oracle s doc_id h1 h2]
  rcases (if oracle 0 = FetchOutcome.rateLimited then oracle 1 else oracle 0) with _ | _ | doc
  · exact Or.inr rfl
  · exact Or.inr rfl
  · rcases hj : doc.judgments with _ | jt
    · exact Or.inl (by simp [hj])
    · exact Or.inl (by simp [hj])

/-! ### C2: resolved identifiers are skipped with no fetch call -/

/-- C2: for every identifier already in the done (processed) set or the failed
set — including sets reloaded from processed_ids.txt / failed_ids.txt after a
process restart — `fetch_case` returns immediately: no result, unchanged
state, and an empty list of HTTP calls. -/
theorem fetch_case_resolved_no_fetch (hs : String → Bool)
    (oracle : Nat → FetchOutcome) (s : ScraperState) (doc_id : Nat)
    (pl fl : List Nat) (ps : List String) (c : String) :
    ((doc_id ∈ s.processed_ids ∨ doc_id ∈ s.failed_ids) →
      fetch_case hs oracle s doc_id = ⟨none, s, []⟩)
    ∧ ((doc_id ∈ load_ids pl ∨ doc_id ∈ load_ids fl) →
      fetch_case hs oracle (init_state pl fl ps c) doc_id
        = ⟨none, init_state pl fl ps c, []⟩) := by
  refine ⟨fun h => fetch_case_skip hs oracle s doc_id h, fun h => ?_⟩
  exact fetch_case_skip hs oracle (init_state pl fl ps c) doc_id h

/-- Witness for C2 at a concrete resolved identifier. -/
theorem fetch_case_resolved_no_fetch_witness :
    fetch_case hs0 oracleOkA witState 1 = ⟨none, witState, []⟩
    ∧ fetch_case hs0 oracleOkA (init_state [1] [2] [] "") 1
        = ⟨none, init_state [1] [2] [] "", []⟩ :=
  ⟨(fetch_case_resolved_no_fetch hs0 oracleOkA witState 1 [1] [2] [] "").1
      (Or.inl (by decide)),
    (fetch_case_resolved_no_fetch hs0 oracleOkA witState 1 [1] [2] [] "").2
      (Or.inl (by decide))⟩

/-! ### C7: marking operations are idempotent on set contents -/

/-- C7: `mark_done` and `mark_failed` are idempotent: marking the same
identifier twice leaves both the in-memory set and the set of identifiers
recoverable from the backing file (`load_ids` of the file lines) exactly as
after marking once.  (The file itself gains a duplicate line, but its
recoverable content is unchanged.) -/
theorem mark_idempotent (s : ScraperState) (doc_id : Nat) :
    (mark_done (mark_done s doc_id) doc_id).processed_ids
        = (mark_done s doc_id).processed_ids
    ∧ load_ids (mark_done (mark_done s doc_id) doc_id).processedFile
        = load_ids (mark_done s doc_id).processedFile
    ∧ (mark_failed (mark_failed s doc_id) doc_id).failed_ids
        = (mark_failed s doc_id).failed_ids
    ∧ load_ids (mark_failed (mark_failed s doc_id) doc_id).failedFile
        = load_ids (mark_failed s doc_id).failedFile := by
  refine ⟨?_, ?_, ?_, ?_⟩
  · simp [mark_done]
  · simp only [mark_done, load_ids]
    ext x
    simp only [List.mem_toFinset, List.mem_append, List.mem_singleton]
    tauto
  · simp [mark_failed]
  · simp only [mark_failed, load_ids]
    ext x
    simp only [List.mem_toFinset, List.mem_append, List.mem_singleton]
    tauto

/-! ### C4: exactly one terminal marking per unresolved invocation -/

/-- C4: an invocation of `fetch_case` on an already-resolved identifier has
no side effect at all, while an invocation on an unresolved identifier
performs exactly one terminal marking: either the processed set and file gain
the identifier (failed side untouched) or the failed set and file gain it
(processed side untouched) — never both and never neither. -/
theorem fetch_case_exactly_one_mark (hs : String → Bool)
    (oracle : Nat → FetchOutcome) (s : ScraperState) (doc_id : Nat) :
    ((doc_id ∈ s.processed_ids ∨ doc_id ∈ s.failed_ids) →
      fetch_case hs oracle s doc_id = ⟨none, s, []⟩)
    ∧ (doc_id ∉ s.processed_ids → doc_id ∉ s.failed_ids →
      (((fetch_case hs oracle s doc_id).state.processed_ids
            = insert doc_id s.processed_ids
          ∧ (fetch_case hs oracle s doc_id).state.processedFile
            = s.processedFile ++ [doc_id]
          ∧ (fetch_case hs oracle s doc_id).state.failed_ids = s.failed_ids
          ∧ (fetch_case hs oracle s doc_id).state.failedFile = s.failedFile)
        ∨ ((fetch_case hs oracle s doc_id).state.failed_ids
            = insert doc_id s.failed_ids
          ∧ (fetch_case hs oracle s doc_id).state.failedFile
            = s.failedFile ++ [doc_id]
          ∧ (fetch_case hs oracle s doc_id).state.processed_ids = s.processed_ids
          ∧ (fetch_case hs oracle s doc_id).state.processedFile
            = s.processedFile))
      ∧ ¬(doc_id ∈ (fetch_case hs oracle s doc_id).state.processed_ids
            ∧ doc_id ∈ (fetch_case hs oracle s doc_id).state.failed_ids)
      ∧ (doc_id ∈ (fetch_case hs oracle s doc_id).state.processed_ids
          ∨ doc_id ∈ (fetch_case hs oracle s doc_id).state.failed_ids)) := by
  refine ⟨fetch_case_skip hs oracle s doc_id, fun h1 h2 => ?_⟩
  have hs2 := get_next_proxy_snd hs s
  rcases fetch_case_state_cases hs oracle s doc_id h1 h2 with h | h <;>
    rw [h] <;>
    simp [mark_done, mark_failed, hs2.1, hs2.2.1, hs2.2.2.1, hs2.2.2.2.1, h1, h2]

/-- Witness for C4 at a concrete unresolved identifier (3, against
`witState`). -/
theorem fetch_case_exactly_one_mark_witness :
    ((fetch_case hs0 oracleOkA witState 3).state.processed_ids
          = insert 3 witState.processed_ids
        ∧ (fetch_case hs0 oracleOkA witState 3).state.processedFile
          = witState.processedFile ++ [3]
        ∧ (fetch_case hs0 oracleOkA witState 3).state.failed_ids
          = witState.failed_ids
        ∧ (fetch_case hs0 oracleOkA witState 3).state.failedFile
          = witState.failedFile)
      ∨ ((fetch_case hs0 oracleOkA witState 3).state.failed_ids
          = insert 3 witState.failed_ids
        ∧ (fetch_case hs0 oracleOkA witState 3).state.failedFile
          = witState.failedFile ++ [3]
        ∧ (fetch_case hs0 oracleOkA witState 3).state.processed_ids
          = witState.processed_ids
        ∧ (fetch_case hs0 oracleOkA witState 3).state.processedFile
          = witState.processedFile) :=
  ((fetch_case_exactly_one_mark hs0 oracleOkA witState 3).2
    (by decide) (by decide)).1

theorem fetch_case_corpus (hs : String → Bool) (oracle : Nat → FetchOutcome)
    (s : ScraperState) (doc_id : Nat) :
    (fetch_case hs oracle s doc_id).state.corpus = s.corpus := by
  by_cases h1 : doc_id ∈ s.processed_ids
  · rw [fetch_case_skip hs oracle s doc_id (Or.inl h1)]
  · by_cases h2 : doc_id ∈ s.failed_ids
    · rw [fetch_case_skip hs oracle s doc_id (Or.inr h2)]
    · rcases fetch_case_state_cases hs oracle s doc_id h1 h2 with h | h <;>
        rw [h] <;>
        simp [mark_done, mark_failed, (get_next_proxy_snd hs s).2.2.2.2.1]

/-! ### C5: exactly one retry after a rate-limit response -/

/-- C5: when the first fetch of an unresolved identifier returns HTTP 429,
`fetch_case` retries exactly once more — the invocation issues exactly 2 HTTP
calls — and classifies from the second response: a parsed page (even an
empty one) ends in the done set, a failure or a second 429 ends in the
failed set. -/
theorem fetch_case_rate_limit_retry (hs : String → Bool)
    (oracle : Nat → FetchOutcome) (s : ScraperState) (doc_id : Nat)
    (h1 : doc_id ∉ s.processed_ids) (h2 : doc_id ∉ s.failed_ids)
    (hrl : oracle 0 = FetchOutcome.rateLimited) :
    (fetch_case hs oracle s doc_id).calls.length = 2
    ∧ (∀ doc, oracle 1 = FetchOutcome.ok doc →
        doc_id ∈ (fetch_case hs oracle s doc_id).state.processed_ids)
    ∧ ((oracle 1 = FetchOutcome.rateLimited ∨ oracle 1 = FetchOutcome.error) →
        doc_id ∈ (fetch_case hs oracle s doc_id).state.failed_ids) := by
  rw [fetch_case_unresolved_eq hs oracle s doc_id h1 h2]
  rcases ho : oracle 1 with _ | _ | doc
  · simp [hrl, ho, mark_failed]
  · simp [hrl, ho, mark_failed]
  · rcases hj : doc.judgments with _ | jt <;> simp [hrl, ho, hj, mark_done]

/-- Witness for C5: rate-limited then success gives 2 calls and Done. -/
theorem fetch_case_rate_limit_retry_witness :
    (fetch_case hs0 oracleRL witState 3).calls.length = 2
    ∧ 3 ∈ (fetch_case hs0 oracleRL witState 3).state.processed_ids :=
  ⟨(fetch_case_rate_limit_retry hs0 oracleRL witState 3 (by decide) (by decide)
      rfl).1,
    (fetch_case_rate_limit_retry hs0 oracleRL witState 3 (by decide) (by decide)
      rfl).2.1 ⟨some "judgment body", some "A v. B"⟩ rfl⟩

/-! ### C10: the 429 retry reuses the same proxy configuration -/

/-- C10: within one `fetch_case` invocation on an unresolved identifier the
proxy rotator is consulted exactly once, before the first attempt: the cursor
after the invocation is the cursor after that single consultation, the two
calls of the rate-limited path carry the identical proxy configuration, and a
non-rate-limited first response gives a single call with that
configuration. -/
theorem fetch_case_same_proxy_both_attempts (hs : String → Bool)
    (oracle : Nat → FetchOutcome) (s : ScraperState) (doc_id : Nat)
    (h1 : doc_id ∉ s.processed_ids) (h2 : doc_id ∉ s.failed_ids) :
    (fetch_case hs oracle s doc_id).state.proxy_index
        = (get_next_proxy hs s).2.proxy_index
    ∧ (oracle 0 = FetchOutcome.rateLimited →
        (fetch_case hs oracle s doc_id).calls
          = [(get_next_proxy hs s).1, (get_next_proxy hs s).1])
    ∧ (oracle 0 ≠ FetchOutcome.rateLimited →
        (fetch_case hs oracle s doc_id).calls = [(get_next_proxy hs s).1]) := by
  rw [fetch_case_unresolved_eq hs oracle s doc_id h1 h2]
  rcases hresp : (if oracle 0 = FetchOutcome.rateLimited
      then oracle 1 else oracle 0) with _ | _ | doc
  · exact ⟨by simp [hresp, mark_failed], fun h0 => by simp [hresp, h0],
      fun h0 => by simp [hresp, h0]⟩
  · exact ⟨by simp [hresp, mark_failed], fun h0 => by simp [hresp, h0],
      fun h0 => by simp [hresp, h0]⟩
  · rcases hj : doc.judgments with _ | jt <;>
      exact ⟨by simp [hresp, hj, mark_done], fun h0 => by simp [hresp, hj, h0],
        fun h0 => by simp [hresp, hj, h0]⟩

theorem fetch_case_same_proxy_both_attempts_witness :
    (fetch_case hs0 oracleRL proxyState 3).state.proxy_index
        = (get_next_proxy hs0 proxyState).2.proxy_index
    ∧ (fetch_case hs0 oracleRL proxyState 3).calls
        = [(get_next_proxy hs0 proxyState).1, (get_next_proxy hs0 proxyState).1] :=
  ⟨(fetch_case_same_proxy_both_attempts hs0 oracleRL proxyState 3 (by decide)
      (by decide)).1,
    (fetch_case_same_proxy_both_attempts hs0 oracleRL proxyState 3 (by decide)
      (by decide)).2.1 rfl⟩

/-! ### C9: the corpus append writes exactly the fixed block -/

/-- C9: when `fetch_case` returns a record, `process_single_case` leaves the
corpus equal to its previous bytes followed by exactly the fixed block:
blank lines, a 100-character '=' delimiter line, the identifier and title
lines, another delimiter, the body, trailing blank lines. -/
theorem corpus_append_block (hs : String → Bool) (oracle : Nat → FetchOutcome)
    (s : ScraperState) (doc_id did : Nat) (title content : String)
    (h : (fetch_case hs oracle s doc_id).result = some (did, title, content)) :
    (process_single_case hs oracle s doc_id).1.corpus
      = s.corpus ++ recordBlock did title content
    ∧ recordBlock did title content
      = "\n\n" ++ eqLine ++ "\n" ++ "Case ID: " ++ toString did ++ "\nTitle: "
          ++ title ++ "\n" ++ eqLine ++ "\n\n" ++ content ++ "\n\n"
    ∧ eqLine.length = 100
    ∧ (∀ ch ∈ eqLine.data, ch = '=') := by
  refine ⟨?_, rfl, rfl, fun ch hch => List.eq_of_mem_replicate hch⟩
  simp only [process_single_case, h]
  rw [fetch_case_corpus]

/-- Witness for C9 at a concrete successful fetch. -/
theorem corpus_append_block_witness :
    (process_single_case hs0 oracleOkA witState 3).1.corpus
      = witState.corpus ++ recordBlock 3 "A v. B" "judgment body" :=
  (corpus_append_block hs0 oracleOkA witState 3 3 "A v. B" "judgment body"
    (by decide)).1

/-! ### C6: empty extraction is a Done outcome; full range run -/

/-- C6: a fetched document with no judgments div marks the identifier Done
(no record, corpus unchanged); consequently the batched run over 1..10 with
batch size 5, where id 5 has empty content, ends with done = 1..10, an empty
failed set, and exactly the 9 record blocks of ids 1-4 and 6-10 in the
corpus file. -/
theorem empty_content_and_run_range (hs : String → Bool)
    (oracle : Nat → FetchOutcome) (s : ScraperState) (doc_id : Nat) :
    (∀ t, (if oracle 0 = FetchOutcome.rateLimited then oracle 1 else oracle 0)
          = FetchOutcome.ok ⟨none, t⟩ →
      doc_id ∉ s.processed_ids → doc_id ∉ s.failed_ids →
        (fetch_case hs oracle s doc_id).result = none
        ∧ doc_id ∈ (fetch_case hs oracle s doc_id).state.processed_ids
        ∧ (process_single_case hs oracle s doc_id).1.corpus = s.corpus)
    ∧ (run_range hs0 oracle6 emptyState 10 5).processed_ids
        = {1, 2, 3, 4, 5, 6, 7, 8, 9, 10}
    ∧ (run_range hs0 oracle6 emptyState 10 5).failed_ids = ∅
    ∧ (run_range hs0 oracle6 emptyState 10 5).corpus
        = String.join ([1, 2, 3, 4, 6, 7, 8, 9, 10].map
            (fun i => recordBlock i ("title" ++ toString i)
              ("body" ++ toString i))) := by
  refine ⟨fun t hdoc hp hf => ?_, by decide, by decide, rfl⟩
  have hfc : fetch_case hs oracle s doc_id
      = ⟨none, mark_done (get_next_proxy hs s).2 doc_id,
          if oracle 0 = FetchOutcome.rateLimited
          then [(get_next_proxy hs s).1, (get_next_proxy hs s).1]
          else [(get_next_proxy hs s).1]⟩ := by
    rw [fetch_case_unresolved_eq hs oracle s doc_id hp hf, hdoc]
  refine ⟨by rw [hfc], by rw [hfc]; simp [mark_done], ?_⟩
  simp only [process_single_case, hfc]
  simp [mark_done, (get_next_proxy_snd hs s).2.2.2.2.1]

/-- Witness for C6's empty-content clause at a concrete identifier. -/
theorem empty_content_and_run_range_witness :
    (fetch_case hs0 oracleEmptyDoc witState 3).result = none
    ∧ 3 ∈ (fetch_case hs0 oracleEmptyDoc witState 3).state.processed_ids
    ∧ (process_single_case hs0 oracleEmptyDoc witState 3).1.corpus
        = witState.corpus :=
  (empty_content_and_run_range hs0 oracleEmptyDoc witState 3).1 (some "T")
    rfl (by decide) (by decide)

/-! ### C1: the bounded retry pass is a no-op (code bug) -/

/-- C1 (refuted by the code): with failed = 7,8,9 and an injected fetch that
succeeds for 7 and 8 and always fails for 9, `retry_failed_cases` with 3
passes changes nothing: every retried id is skipped at `fetch_case`'s
failed-set guard (py.py line 99), since `self.failed_ids` still holds it, so
the failed set stays 7,8,9 (the claim expects 9 alone), the done set gains
nothing (the claim expects 7 and 8), the corpus gains no record (the claim
expects 2), failed_ids.txt is rewritten with the same set, and not a single
HTTP call is issued. -/
theorem retry_failed_cases_no_op :
    (retry_failed_cases hs0 oracleRetry retryState 3).1.failed_ids = {7, 8, 9}
    ∧ (retry_failed_cases hs0 oracleRetry retryState 3).1.processed_ids = ∅
    ∧ (retry_failed_cases hs0 oracleRetry retryState 3).1.corpus = ""
    ∧ (retry_failed_cases hs0 oracleRetry retryState 3).1.failedFile = [7, 8, 9]
    ∧ (retry_failed_cases hs0 oracleRetry retryState 3).2 = [] := by decide

/-! ### C3: ledger invariant preservation -/

theorem pres_refl (s : ScraperState) : Pres s s :=
  ⟨subset_rfl, subset_rfl, fun h => h⟩

theorem pres_trans {a b c : ScraperState} (h1 : Pres a b) (h2 : Pres b c) :
    Pres a c :=
  ⟨h1.1.trans h2.1, h1.2.1.trans h2.2.1, fun hd => h2.2.2 (h1.2.2 hd)⟩

theorem mark_done_pres {t : ScraperState} (s : ScraperState) (doc_id : Nat)
    (hpt : t.processed_ids = s.processed_ids)
    (hft : t.failed_ids = s.failed_ids)
    (hnf : doc_id ∉ s.failed_ids) : Pres s (mark_done t doc_id) := by
  refine ⟨?_, ?_, fun hd => ?_⟩
  · simp only [mark_done, hpt]
    exact Finset.subset_insert _ _
  · simp only [mark_done, hft]
    exact subset_rfl
  · simp only [mark_done, hpt, hft, Finset.disjoint_insert_left]
    exact ⟨hnf, hd⟩

theorem mark_failed_pres {t : ScraperState} (s : ScraperState) (doc_id : Nat)
    (hpt : t.processed_ids = s.processed_ids)
    (hft : t.failed_ids = s.failed_ids)
    (hnp : doc_id ∉ s.processed_ids) : Pres s (mark_failed t doc_id) := by
  refine ⟨?_, ?_, fun hd => ?_⟩
  · simp only [mark_failed, hpt]
    exact subset_rfl
  · simp only [mark_failed, hft]
    exact Finset.subset_insert _ _
  · simp only [mark_failed, hpt, hft, Finset.disjoint_insert_right]
    exact ⟨hnp, hd⟩

theorem fetch_case_pres (hs : String → Bool) (oracle : Nat → FetchOutcome)
    (s : ScraperState) (doc_id : Nat) :
    Pres s (fetch_case hs oracle s doc_id).state := by
  by_cases h1 : doc_id ∈ s.processed_ids
  · rw [fetch_case_skip hs oracle s doc_id (Or.inl h1)]
    exact pres_refl s
  · by_cases h2 : doc_id ∈ s.failed_ids
    · rw [fetch_case_skip hs oracle s doc_id (Or.inr h2)]
      exact pres_refl s
    · have hsnd := get_next_proxy_snd hs s
      rcases fetch_case_state_cases hs oracle s doc_id h1 h2 with h | h <;> rw [h]
      · exact mark_done_pres s doc_id hsnd.1 hsnd.2.1 h2
      · exact mark_failed_pres s doc_id hsnd.1 hsnd.2.1 h1

theorem process_single_case_pres (hs : String → Bool)
    (oracle : Nat → FetchOutcome) (s : ScraperState) (doc_id : Nat) :
    Pres s (process_single_case hs oracle s doc_id).1 := by
  have h := fetch_case_pres hs oracle s doc_id
  unfold process_single_case
  rcases hres : (fetch_case hs oracle s doc_id).result
    with _ | ⟨did, title, content⟩
  · simpa [hres] using h
  · simp only [hres]
    exact ⟨h.1, h.2.1, h.2.2⟩

theorem foldl_pres {α : Type} (f : ScraperState → α → ScraperState)
    (hf : ∀ st a, Pres st (f st a)) :
    ∀ (l : List α) (s : ScraperState), Pres s (l.foldl f s)
  | [], s => pres_refl s
  | a :: l, s => pres_trans (hf s a) (foldl_pres f hf l (f s a))

theorem save_cases_pres (hs : String → Bool) (oracle : Nat → Nat → FetchOutcome)
    (s : ScraperState) (start fin : Nat) :
    Pres s (save_cases hs oracle s start fin) :=
  foldl_pres _ (fun st a => process_single_case_pres hs (oracle a) st a) _ s

theorem run_range_pres (hs : String → Bool) (oracle : Nat → Nat → FetchOutcome)
    (s : ScraperState) (total batch_size : Nat) :
    Pres s (run_range hs oracle s total batch_size) :=
  foldl_pres _ (fun st a => save_cases_pres hs oracle st a _) _ s

theorem mem_insertSorted {a b : Nat} {l : List Nat} :
    a ∈ insertSorted b l ↔ a = b ∨ a ∈ l := by
  induction l with
  | nil => simp [insertSorted]
  | cons c l ih =>
    by_cases h : b ≤ c <;> simp [insertSorted, h, ih] <;> tauto

theorem mem_foldr_insertSorted {a : Nat} (m : Multiset Nat) :
    a ∈ Multiset.foldr insertSorted [] m ↔ a ∈ m := by
  induction m using Multiset.induction_on with
  | empty => simp
  | cons b t ih =>
    rw [Multiset.foldr_cons]
    simp [mem_insertSorted, ih]

theorem mem_sortedListOf {a : Nat} {s : Finset Nat} :
    a ∈ sortedListOf s ↔ a ∈ s := by
  unfold sortedListOf
  rw [mem_foldr_insertSorted]
  exact Iff.rfl

theorem toFinset_sortedListOf (s : Finset Nat) :
    (sortedListOf s).toFinset = s := by
  ext a
  simp [List.mem_toFinset, mem_sortedListOf]

theorem retry_step_skip (hs : String → Bool) (oracleP : Nat → Nat → FetchOutcome)
    (st : ScraperState) (wk : List Nat) (log : List (Option ProxyCfg))
    (doc_id : Nat) (h : doc_id ∈ st.failed_ids) :
    retry_step hs oracleP (st, wk, log) doc_id = (st, wk, log) := by
  unfold retry_step
  rw [fetch_case_skip hs (oracleP doc_id) st doc_id (Or.inr h)]
  simp

theorem retry_pass_foldl_skip (hs : String → Bool)
    (oracleP : Nat → Nat → FetchOutcome) :
    ∀ (l : List Nat) (st : ScraperState) (wk : List Nat)
      (log : List (Option ProxyCfg)),
      (∀ i ∈ l, i ∈ st.failed_ids) →
      l.foldl (retry_step hs oracleP) (st, wk, log) = (st, wk, log)
  | [], _, _, _, _ => rfl
  | a :: l, st, wk, log, h => by
    rw [List.foldl_cons, retry_step_skip hs oracleP st wk log a (h a (by simp))]
    exact retry_pass_foldl_skip hs oracleP l st wk log
      (fun i hi => h i (by simp [hi]))

theorem retry_pass_skip (hs : String → Bool)
    (oracleP : Nat → Nat → FetchOutcome) (s : ScraperState) (working : List Nat)
    (h : ∀ i ∈ working, i ∈ s.failed_ids) :
    retry_pass hs oracleP s working = (s, working, []) :=
  retry_pass_foldl_skip hs oracleP working s working [] h

theorem retry_loop_skip (hs : String → Bool)
    (oracle : Nat → Nat → Nat → FetchOutcome) :
    ∀ (fuel pass : Nat) (s : ScraperState) (wk : List Nat)
      (log : List (Option ProxyCfg)),
      (∀ i ∈ wk, i ∈ s.failed_ids) →
      retry_loop hs oracle fuel pass s wk log = (s, wk, log)
  | 0, _, _, _, _, _ => rfl
  | fuel + 1, pass, s, wk, log, h => by
    unfold retry_loop
    rw [retry_pass_skip hs (oracle pass) s wk h]
    by_cases hwk : wk = []
    · rw [if_pos hwk]
      simp
    · rw [if_neg hwk]
      show retry_loop hs oracle fuel (pass + 1) s wk (log ++ []) = (s, wk, log)
      rw [List.append_nil]
      exact retry_loop_skip hs oracle fuel (pass + 1) s wk log h

theorem retry_failed_cases_eq (hs : String → Bool)
    (oracle : Nat → Nat → Nat → FetchOutcome) (s : ScraperState) (n : Nat) :
    retry_failed_cases hs oracle s n
      = if s.failed_ids = ∅ then (s, [])
        else ({ s with failedFile := sortedListOf s.failed_ids }, []) := by
  unfold retry_failed_cases
  by_cases hf : s.failed_ids = ∅
  · rw [if_pos hf, if_pos hf]
  · rw [if_neg hf, if_neg hf]
    simp only []
    rw [retry_loop_skip hs oracle n 0 s (sortedListOf s.failed_ids) []
      (fun i hi => mem_sortedListOf.mp hi)]
    rw [toFinset_sortedListOf]

theorem retry_failed_cases_pres (hs : String → Bool)
    (oracle : Nat → Nat → Nat → FetchOutcome) (s : ScraperState) (n : Nat) :
    Pres s (retry_failed_cases hs oracle s n).1 := by
  rw [retry_failed_cases_eq]
  by_cases hf : s.failed_ids = ∅
  · rw [if_pos hf]
    exact pres_refl s
  · rw [if_neg hf]
    exact ⟨subset_rfl, subset_rfl, fun h => h⟩

/-- C3: every operation of the scraper preserves the ledger invariant.  If
the done and failed sets are disjoint before an operation (as they are after
loading ledger files that the program itself wrote), they are disjoint after
it — an identifier is in at most one of the two sets at any time — and
membership is monotone: no operation removes an identifier from either set.
In particular the only sanctioned removal, a bounded-retry success moving an
id out of failed, removes nothing in this code (see the C1 theorem), so even
the retry pass only preserves both sets. -/
theorem scraper_step_invariant (hs : String → Bool) {s t : ScraperState}
    (hstep : ScraperStep hs s t)
    (hdisj : Disjoint s.processed_ids s.failed_ids) :
    Disjoint t.processed_ids t.failed_ids
    ∧ s.processed_ids ⊆ t.processed_ids
    ∧ s.failed_ids ⊆ t.failed_ids := by
  have hpres : Pres s t := by
    cases hstep with
    | fetch oracle s doc_id => exact fetch_case_pres hs oracle s doc_id
    | single oracle s doc_id => exact process_single_case_pres hs oracle s doc_id
    | save oracle s a b => exact save_cases_pres hs oracle s a b
    | runr oracle s t b => exact run_range_pres hs oracle s t b
    | retry oracle s n => exact retry_failed_cases_pres hs oracle s n
  exact ⟨hpres.2.2 hdisj, hpres.1, hpres.2.1⟩

/-- Witness for C3: one concrete fetch step from a disjoint state. -/
theorem scraper_step_invariant_witness :
    Disjoint (fetch_case hs0 oracleOkA witState 3).state.processed_ids
        (fetch_case hs0 oracleOkA witState 3).state.failed_ids
    ∧ witState.processed_ids
        ⊆ (fetch_case hs0 oracleOkA witState 3).state.processed_ids
    ∧ witState.failed_ids
        ⊆ (fetch_case hs0 oracleOkA witState 3).state.failed_ids :=
  scraper_step_invariant hs0 (ScraperStep.fetch oracleOkA witState 3)
    (by decide)

/-! ### C8: round-robin proxy rotation -/

theorem get_next_proxy_iter_proxies (hs : String → Bool) (s : ScraperState) :
    ∀ n, (get_next_proxy_iter hs s n).2.proxies = s.proxies
  | 0 => rfl
  | n + 1 => by
    show (get_next_proxy hs (get_next_proxy_iter hs s n).2).2.proxies
      = s.proxies
    rw [(get_next_proxy_snd hs _).2.2.2.2.2,
      get_next_proxy_iter_proxies hs s n]

theorem get_next_proxy_iter_length (hs : String → Bool) (s : ScraperState) :
    ∀ n, (get_next_proxy_iter hs s n).1.length = n
  | 0 => rfl
  | n + 1 => by
    show ((get_next_proxy_iter hs s n).1
      ++ [(get_next_proxy hs (get_next_proxy_iter hs s n).2).1]).length = n + 1
    rw [List.length_append, get_next_proxy_iter_length hs s n]
    rfl

theorem get_next_proxy_iter_index (hs : String → Bool) (s : ScraperState)
    (hc : s.proxy_index < s.proxies.length) :
    ∀ n, (get_next_proxy_iter hs s n).2.proxy_index
      = (s.proxy_index + n) % s.proxies.length
  | 0 => by
    show s.proxy_index = (s.proxy_index + 0) % s.proxies.length
    rw [Nat.add_zero, Nat.mod_eq_of_lt hc]
  | n + 1 => by
    have hK : 0 < s.proxies.length := lt_of_le_of_lt (Nat.zero_le _) hc
    have hnil : s.proxies ≠ [] := by
      intro h
      rw [h] at hK
      simp at hK
    have hp := get_next_proxy_iter_proxies hs s n
    show (get_next_proxy hs (get_next_proxy_iter hs s n).2).2.proxy_index
      = (s.proxy_index + (n + 1)) % s.proxies.length
    unfold get_next_proxy
    rw [if_neg (by simp [List.isEmpty_iff, hp, hnil])]
    show ((get_next_proxy_iter hs s n).2.proxy_index + 1)
        % (get_next_proxy_iter hs s n).2.proxies.length
      = (s.proxy_index + (n + 1)) % s.proxies.length
    rw [hp, get_next_proxy_iter_index hs s hc n, Nat.mod_add_mod,
      Nat.add_assoc]

theorem get_next_proxy_iter_get (hs : String → Bool) (s : ScraperState)
    (hc : s.proxy_index < s.proxies.length) :
    ∀ n m, m < n →
      (get_next_proxy_iter hs s n).1[m]?
        = some (some (normalize_proxy hs
            (s.proxies.getD ((s.proxy_index + m) % s.proxies.length) "")))
  | 0, m, h => absurd h (Nat.not_lt_zero m)
  | n + 1, m, h => by
    have hK : 0 < s.proxies.length := lt_of_le_of_lt (Nat.zero_le _) hc
    have hnil : s.proxies ≠ [] := by
      intro hx
      rw [hx] at hK
      simp at hK
    show ((get_next_proxy_iter hs s n).1
      ++ [(get_next_proxy hs (get_next_proxy_iter hs s n).2).1])[m]? = _
    by_cases hm : m < n
    · rw [List.getElem?_append_left
        (by rw [get_next_proxy_iter_length hs s n]; exact hm)]
      exact get_next_proxy_iter_get hs s hc n m hm
    · have hmn : m = n := by omega
      subst hmn
      have hlen : (get_next_proxy_iter hs s m).1.length = m :=
        get_next_proxy_iter_length hs s m
      rw [List.getElem?_append_right (le_of_eq hlen), hlen, Nat.sub_self]
      have hp := get_next_proxy_iter_proxies hs s m
      have hidx := get_next_proxy_iter_index hs s hc m
      show some (get_next_proxy hs (get_next_proxy_iter hs s m).2).1 = _
      unfold get_next_proxy
      rw [if_neg (by simp [List.isEmpty_iff, hp, hnil])]
      show some (some (normalize_proxy hs
        ((get_next_proxy_iter hs s m).2.proxies.getD
          (get_next_proxy_iter hs s m).2.proxy_index ""))) = _
      rw [hp, hidx]

theorem two_mul_mod (a K : Nat) (hK : 0 < K) (h : a < 2 * K) :
    a % K = if a < K then a else a - K := by
  by_cases h1 : a < K
  · rw [if_pos h1, Nat.mod_eq_of_lt h1]
  · rw [if_neg h1, Nat.mod_eq_sub_mod (Nat.le_of_not_lt h1),
      Nat.mod_eq_of_lt (by omega)]

theorem shift_mod_iff (K c j n : Nat) (hK : 0 < K) (hj : j < K) :
    (c + n) % K = j ↔ n % K = (j + K - c % K) % K := by
  have hc : c % K < K := Nat.mod_lt _ hK
  have hn : n % K < K := Nat.mod_lt _ hK
  have h1 : (c + n) % K = (c % K + n % K) % K := by
    rw [Nat.add_mod]
  have h2 : (c % K + n % K) % K
      = if c % K + n % K < K then c % K + n % K else c % K + n % K - K :=
    two_mul_mod _ _ hK (by omega)
  have h3 : (j + K - c % K) % K
      = if j + K - c % K < K then j + K - c % K else j + K - c % K - K :=
    two_mul_mod _ _ hK (by omega)
  rw [h1, h2, h3]
  split_ifs <;> omega

theorem count_mod_range (K r : Nat) (hK : 0 < K) (hr : r < K) (N : Nat) :
    ((List.range N).filter (fun n => decide (n % K = r))).length
      = N / K + (if r < N % K then 1 else 0) := by
  induction N with
  | zero => simp
  | succ N ih =>
    rw [List.range_succ, List.filter_append, List.length_append, ih]
    obtain ⟨q, m, hm2, hq, hm⟩ : ∃ q m, m < K ∧ N / K = q ∧ N % K = m :=
      ⟨N / K, N % K, Nat.mod_lt _ hK, rfl, rfl⟩
    have hsm : (N + 1) % K = if m + 1 = K then 0 else m + 1 := by
      by_cases hK1 : K = 1
      · subst hK1
        have hm0 : m = 0 := by
          rw [← hm, Nat.mod_one]
        rw [Nat.mod_one, hm0]
        simp
      · rw [Nat.add_mod, hm, Nat.one_mod_eq_one.mpr hK1,
          two_mul_mod _ _ hK (by omega)]
        split_ifs <;> omega
    have hdv : (N + 1) % K = 0 ↔ m + 1 = K := by
      rw [hsm]
      split_ifs with h
      · simp [h]
      · simp [h]
    have hsd : (N + 1) / K = if m + 1 = K then q + 1 else q := by
      rw [Nat.succ_div, hq]
      by_cases hc : m + 1 = K
      · rw [if_pos hc, if_pos (Nat.dvd_of_mod_eq_zero (hdv.mpr hc))]
      · rw [if_neg hc,
          if_neg (fun hdd => hc (hdv.mp (Nat.mod_eq_zero_of_dvd hdd))),
          Nat.add_zero]
    have hfilt : (List.filter (fun n => decide (n % K = r)) [N]).length
        = if m = r then 1 else 0 := by
      by_cases hNr : m = r <;> simp [List.filter_singleton, hm, hNr]
    rw [hfilt, hsd, hsm, hq, hm]
    split_ifs <;> omega

theorem count_shift_mod_range (K c j : Nat) (hK : 0 < K) (hj : j < K)
    (N : Nat) :
    ((List.range N).filter (fun n => decide ((c + n) % K = j))).length
      = N / K + (if (j + K - c % K) % K < N % K then 1 else 0) := by
  have h : ∀ n ∈ List.range N,
      (decide ((c + n) % K = j)) = (decide (n % K = (j + K - c % K) % K)) :=
    fun n _ => decide_eq_decide.mpr (shift_mod_iff K c j n hK hj)
  rw [List.filter_congr h]
  exact count_mod_range K ((j + K - c % K) % K) hK (Nat.mod_lt _ hK) N

theorem ceil_div_eq (K N : Nat) (hK : 0 < K) :
    (N + K - 1) / K = N / K + if N % K = 0 then 0 else 1 := by
  obtain ⟨q, m, hm2, hq, hm, hN⟩ :
      ∃ q m, m < K ∧ N / K = q ∧ N % K = m ∧ N = K * q + m :=
    ⟨N / K, N % K, Nat.mod_lt _ hK, rfl, rfl, (Nat.div_add_mod N K).symm⟩
  rw [hq, hm]
  subst hN
  by_cases h : m = 0
  · subst h
    rw [if_pos rfl]
    have e1 : K * q + 0 + K - 1 = K * q + (K - 1) := by
      rw [Nat.add_zero, Nat.add_sub_assoc (by omega) (K * q)]
    rw [e1, Nat.mul_add_div hK, Nat.div_eq_of_lt (by omega), Nat.add_zero]
  · rw [if_neg h]
    have hm1 : 1 ≤ m := Nat.one_le_iff_ne_zero.mpr h
    have e1 : K * q + m + K - 1 = K * q + (m + K - 1) := by
      rw [Nat.add_assoc, Nat.add_sub_assoc (by omega) (K * q)]
    rw [e1, Nat.mul_add_div hK,
      Nat.div_eq_of_lt_le (k := 1) (n := K) (by omega) (by omega)]

/-- C8: `get_next_proxy` returns none on an empty proxy list (leaving the
state untouched); on a nonempty list of length K with cursor c, a sequence
of N calls returns, at position n, the normalized entry at index (c+n) mod K
— the entries in cyclic order from the cursor — the cursor ends at
(c+N) mod K regardless of any request outcome, and each index j is selected
either floor(N/K) or ceil(N/K) times. -/
theorem get_next_proxy_rotation (hs : String → Bool) (s : ScraperState)
    (N j : Nat) :
    (s.proxies = [] → get_next_proxy hs s = (none, s))
    ∧ (s.proxy_index < s.proxies.length → j < s.proxies.length →
        (∀ n, n < N → (get_next_proxy_iter hs s N).1[n]?
          = some (some (normalize_proxy hs
              (s.proxies.getD ((s.proxy_index + n) % s.proxies.length) ""))))
        ∧ (get_next_proxy_iter hs s N).2.proxy_index
            = (s.proxy_index + N) % s.proxies.length
        ∧ (((List.range N).filter (fun n =>
              decide ((s.proxy_index + n) % s.proxies.length = j))).length
              = N / s.proxies.length
            ∨ ((List.range N).filter (fun n =>
              decide ((s.proxy_index + n) % s.proxies.length = j))).length
              = (N + s.proxies.length - 1) / s.proxies.length)) := by
  constructor
  · intro h
    simp [get_next_proxy, h]
  · intro hc hj
    have hK : 0 < s.proxies.length := lt_of_le_of_lt (Nat.zero_le _) hj
    refine ⟨fun n hn => get_next_proxy_iter_get hs s hc N n hn,
      get_next_proxy_iter_index hs s hc N, ?_⟩
    rw [count_shift_mod_range s.proxies.length s.proxy_index j hK hj N]
    by_cases hcase :
        (j + s.proxies.length - s.proxy_index % s.proxies.length)
          % s.proxies.length < N % s.proxies.length
    · right
      rw [if_pos hcase, ceil_div_eq _ _ hK,
        if_neg (Nat.pos_iff_ne_zero.mp
          (lt_of_le_of_lt (Nat.zero_le _) hcase))]
    · left
      rw [if_neg hcase, Nat.add_zero]

/-- Witness for C8 over a two-entry proxy list, three calls, index 1. -/
theorem get_next_proxy_rotation_witness :
    get_next_proxy hs0 emptyState = (none, emptyState)
    ∧ (get_next_proxy_iter hs0 proxyState 3).1[1]?
        = some (some (normalize_proxy hs0 (proxyState.proxies.getD
            ((proxyState.proxy_index + 1) % proxyState.proxies.length) "")))
    ∧ (get_next_proxy_iter hs0 proxyState 3).2.proxy_index
        = (proxyState.proxy_index + 3) % proxyState.proxies.length
    ∧ (((List.range 3).filter (fun n =>
          decide ((proxyState.proxy_index + n)
            % proxyState.proxies.length = 1))).length
          = 3 / proxyState.proxies.length
        ∨ ((List.range 3).filter (fun n =>
          decide ((proxyState.proxy_index + n)
            % proxyState.proxies.length = 1))).length
          = (3 + proxyState.proxies.length - 1) / proxyState.proxies.length) :=
  ⟨(get_next_proxy_rotation hs0 emptyState 0 0).1 rfl,
    ((get_next_proxy_rotation hs0 proxyState 3 1).2 (by decide) (by decide)).1
      1 (by decide),
    ((get_next_proxy_rotation hs0 proxyState 3 1).2 (by decide) (by decide)).2.1,
    ((get_next_proxy_rotation hs0 proxyState 3 1).2 (by decide)
      (by decide)).2.2⟩

end Scraper
